import Mathlib

/-!
Verification of the dataset-management backend (`aurify-backend`).

This file shallowly embeds the core of the repository:

* the in-memory table produced by `pandas.read_csv`/`read_excel` with
  `dtype=str` (cells are `Option String`, `none` standing for `NaN`);
* the single-project database state (project document, version ledger,
  blob store keyed by file path);
* the operations `upload_dataset` (`src/app/blueprints/project/views.py`),
  `get_column_names`, `update_column_names` and `partition_by_tags`
  (`src/app/blueprints/dataset/views.py`) together with the Python string
  helpers they rely on (`os.path.basename`, `os.path.splitext`,
  `str.replace`, `str.strip`, `str.endswith`, `float(f"2.{n}")`).

Database writes are modelled as in-memory list updates that always succeed;
the explicit `Bool` parameters (`saveOk`, `projOk`, `v0ok`, `v1ok`, `updOk`,
`verOk`) model the branches where the code checks the result of a store
call (`create_project` / `create_version` / `update_all_fields`) and takes
its compensation path.
-/

/-! ## Tables (pandas DataFrame with dtype=str) -/

/-- One cell of a loaded dataframe: `none` is pandas `NaN` (a missing value),
`some s` a string cell. -/
abbrev Cell := Option String

/-- An in-memory table: ordered column names and rows of cells, as produced
by `pd.read_csv`/`pd.read_excel` with `dtype=str`. -/
structure Table where
  cols : List String
  rows : List (List Cell)
deriving DecidableEq, Repr

/-- `df.dropna(how='all')`: keep exactly the rows that have at least one
non-missing cell. -/
def dropEmptyRows (t : Table) : Table :=
  { t with rows := t.rows.filter (fun r => r.any Option.isSome) }

/-- First-occurrence deduplication: the helper behind `df.drop_duplicates()`
(keep the first copy of each duplicated row, preserving order).
`seen` accumulates the rows already emitted. -/
def dedupFirstAux {α : Type} [DecidableEq α] : List α → List α → List α
  | _, [] => []
  | seen, a :: rest =>
    if a ∈ seen then dedupFirstAux seen rest
    else a :: dedupFirstAux (a :: seen) rest

/-- `df.drop_duplicates()` on the rows of a table. -/
def dedupRows (t : Table) : Table :=
  { t with rows := dedupFirstAux [] t.rows }

/-! ## Python string helpers -/

/-- `str.endswith(suffix)` on Lean strings (kernel-friendly form of
`String.endsWith`). -/
def endsWith' (s suffix : String) : Bool :=
  suffix.data.isSuffixOf s.data

/-- Python whitespace characters stripped by `str.strip()`. -/
def isPyWhitespace (c : Char) : Bool :=
  c == ' ' || c == '\t' || c == '\n' || c == '\r' || c == '\x0b' || c == '\x0c'

/-- `str.strip()`: remove leading and trailing whitespace. -/
def pyStrip (s : String) : String :=
  String.mk (((s.data.dropWhile isPyWhitespace).reverse.dropWhile isPyWhitespace).reverse)

/-- `os.path.join` for the two-argument uses in this code base
(`os.path.join("", b) = b`, otherwise `a + "/" + b`; the repository never
joins absolute second components). -/
def joinPath (a b : String) : String :=
  if a = "" then b else a ++ "/" ++ b

/-- `os.path.basename`: the part of the path after the last `'/'`. -/
def basenameChars (cs : List Char) : List Char :=
  (cs.reverse.takeWhile (· ≠ '/')).reverse

/-- `os.path.basename` on strings. -/
def basenameStr (s : String) : String :=
  String.mk (basenameChars s.data)

/-- `os.path.dirname`: the part of the path before the last `'/'`
(empty when there is no `'/'`). -/
def dirnameStr (s : String) : String :=
  let b := (s.data.reverse.takeWhile (· ≠ '/')).length
  if b = s.data.length then ""
  else String.mk (s.data.take (s.data.length - b - 1))

/-- `os.path.splitext` applied to a basename: split at the last `'.'`,
provided some character before that dot is not itself a dot (CPython's
leading-dot rule for hidden files). -/
def splitextChars (cs : List Char) : List Char × List Char :=
  let extRev := cs.reverse.takeWhile (· ≠ '.')
  if extRev.length = cs.length then (cs, [])
  else
    let stem := cs.take (cs.length - extRev.length - 1)
    if stem.any (· ≠ '.') then (stem, '.' :: extRev.reverse) else (cs, [])

/-- `os.path.splitext` on strings. -/
def splitextStr (s : String) : String × String :=
  let p := splitextChars s.data
  (String.mk p.1, String.mk p.2)

/-- Does the character list contain `'_','v','1'` consecutively?
(Whether Python's `s.replace('_v1', '')` would change `s`.) -/
def hasV1 : List Char → Bool
  | c1 :: c2 :: c3 :: rest =>
    (c1 == '_' && c2 == 'v' && c3 == '1') || hasV1 (c2 :: c3 :: rest)
  | _ => false

/-- Python `s.replace('_v1', '')`: remove every (left-to-right,
non-overlapping) occurrence of the substring `_v1`. -/
def removeV1 : List Char → List Char
  | c1 :: c2 :: c3 :: rest =>
    if c1 == '_' && c2 == 'v' && c3 == '1' then removeV1 rest
    else c1 :: removeV1 (c2 :: c3 :: rest)
  | cs => cs

/-- The new file name computed by `update_column_names` (views.py line 148):
`f"{filename_without_ext.replace('_v1', '')}_v2{ext}"`. -/
def v2name (stem ext : String) : String :=
  String.mk (removeV1 stem.data) ++ "_v2" ++ ext

/-- Number of decimal digits in the rendering of `n` inside an f-string. -/
def numDigits (n : Nat) : Nat := (toString n).length

/-- The value of Python's `float(f"2.{n}")` (views.py line 261), as an exact
rational: the decimal literal `2.<digits of n>` denotes `2 + n / 10^d` where
`d` is the number of digits of `n`.  Distinct literals of this shape are far
apart, so equality/distinctness of these rationals matches equality of the
parsed doubles for every partition count the code can produce. -/
def pyFloat2N (n : Nat) : ℚ :=
  2 + (n : ℚ) / 10 ^ numDigits n

/-! ## Database state -/

/-- A ledger entry (`versions` collection, `version_model.py`):
description, absolute file location and version number (integer or `2.N`). -/
structure VersionRec where
  description : String
  files_path : String
  version_number : ℚ
deriving DecidableEq, Repr

/-- A partition descriptor collected by `partition_by_tags`
(the elements of the project's `sub_versions` list). -/
structure SubVersion where
  version : Nat
  tag : String
  tag_type : String
  file_path : String
  version_number : ℚ
deriving DecidableEq, Repr

/-- The project document (`projects` collection, `project_model.py`). -/
structure ProjectRec where
  name : String
  file_path : String
  remove_duplicates : Bool
  version_info : List (String × Nat)
  version_number : ℚ
  sub_versions : List SubVersion
deriving DecidableEq, Repr

/-- The state the operations act on: the (single) project document, the
append-only version ledger with its id counter, and the blob store mapping
file paths to stored tables (`none` = a file whose bytes cannot be parsed
by pandas).  A path is "on disk" iff it is a key of `blobs`. -/
structure DBState where
  project : Option ProjectRec
  versions : List (Nat × VersionRec)
  nextVid : Nat
  blobs : List (String × Option Table)
deriving DecidableEq, Repr

/-- The state before any upload. -/
def emptyState : DBState := ⟨none, [], 0, []⟩

/-- `os.path.exists` / reading a file: most recent write to a path wins. -/
def lookupBlob (σ : DBState) (path : String) : Option (Option Table) :=
  σ.blobs.lookup path

/-- Writing a file (serialization step). -/
def insertBlob (path : String) (t : Option Table) (σ : DBState) : DBState :=
  { σ with blobs := (path, t) :: σ.blobs }

/-- `os.remove`. -/
def removeBlob (path : String) (σ : DBState) : DBState :=
  { σ with blobs := σ.blobs.filter (fun b => b.1 ≠ path) }

/-- The uploads directory (`UPLOAD_FOLDER = os.path.join(os.getcwd(),
'datasets')`, with the working directory as the implicit root). -/
def uploadFolder : String := "datasets"

/-- Extension dispatch shared by all read sites
(`endswith('.xlsx') / endswith('.csv') / unsupported`). -/
def extOf (fp : String) : Option String :=
  if endsWith' fp ".xlsx" then some ".xlsx"
  else if endsWith' fp ".csv" then some ".csv"
  else none

/-- The error classes surfaced by the handlers (each constructor corresponds
to one `jsonify({"error": ...})` return in the source). -/
inductive ApiErr where
  | saveFailed
  | createProjectFailed
  | createVersionFailed (n : Nat)
  | updateFailed
  | projectNotFound
  | fileNotFound
  | unsupportedFormat
  | readError
  | missingField
  | missingColumn (col : String)
deriving DecidableEq, Repr

deriving instance DecidableEq for Except

/-! ## Column renaming (`update_column_names`) -/

/-- Line 119: `{old: new for old, new in column_mapping.items() if new.strip()}` —
drop the entries whose new name is empty or whitespace. -/
def filterMapping (m : List (String × String)) : List (String × String) :=
  m.filter (fun p => pyStrip p.2 ≠ "")

/-- `df.rename(columns=mapping)`: rename each column that is a key of the
mapping; labels that are not keys are kept, keys that match no column are
silently ignored (pandas' default `errors='ignore'`). -/
def applyMapping (m : List (String × String)) (cols : List String) : List String :=
  cols.map (fun c => (m.lookup c).getD c)

/-! ## Tag grouping (`partition_by_tags`) -/

/-- Index of a column label in the header (`df.columns.get_loc`). -/
def idxOf (s : String) : List String → Nat
  | [] => 0
  | c :: rest => if c = s then 0 else idxOf s rest + 1

/-- The `(Tags, Tag Type)` value pair of one row (the groupby key;
`none` = NaN, kept because of `dropna=False`). -/
def rowKey (tagIdx typeIdx : Nat) (r : List Cell) : Cell × Cell :=
  ((r.get? tagIdx).join, (r.get? typeIdx).join)

/-- Lexicographic order on chars/strings as used by pandas when sorting
group keys (kernel-friendly form of `String.lt`). -/
def charListLt : List Char → List Char → Bool
  | [], [] => false
  | [], _ :: _ => true
  | _ :: _, [] => false
  | a :: as, b :: bs =>
    if a < b then true else if b < a then false else charListLt as bs

/-- Strict order on groupby key components: pandas sorts `NaN` last. -/
def cellLt : Cell → Cell → Bool
  | none, _ => false
  | some _, none => true
  | some a, some b => charListLt a.data b.data

/-- Non-strict order on key components. -/
def cellLe (a b : Cell) : Bool := cellLt a b || a == b

/-- Order on `(tag, tag type)` group keys: lexicographic, `NaN` last per
level (the default `sort=True` iteration order of `df.groupby`). -/
def keyLe (k1 k2 : Cell × Cell) : Bool :=
  cellLt k1.1 k2.1 || (k1.1 == k2.1 && cellLe k1.2 k2.2)

/-- Insertion into a sorted list. -/
def insertSorted {α : Type} (le : α → α → Bool) (a : α) : List α → List α
  | [] => [a]
  | b :: rest => if le a b then a :: b :: rest else b :: insertSorted le a rest

/-- Insertion sort. -/
def sortBy {α : Type} (le : α → α → Bool) (l : List α) : List α :=
  l.foldr (insertSorted le) []

/-- The distinct `(Tags, Tag Type)` key pairs of a table, in the iteration
order of `df.groupby(['Tags', 'Tag Type'], dropna=False)` (sorted keys,
`NaN` last). -/
def groupKeys (t : Table) : List (Cell × Cell) :=
  let ti := idxOf "Tags" t.cols
  let tti := idxOf "Tag Type" t.cols
  sortBy keyLe (dedupFirstAux [] (t.rows.map (rowKey ti tti)))

/-- `df.groupby(['Tags', 'Tag Type'], dropna=False)`: each distinct raw key
pair with the rows carrying it, rows keeping their original order. -/
def groupsOf (t : Table) : List ((Cell × Cell) × List (List Cell)) :=
  let ti := idxOf "Tags" t.cols
  let tti := idxOf "Tag Type" t.cols
  (groupKeys t).map (fun k => (k, t.rows.filter (fun r => rowKey ti tti r = k)))

/-- Line 249: `str(tag) if pd.notna(tag) and tag != "" else "Untagged"`. -/
def renderTag : Cell → String
  | none => "Untagged"
  | some s => if s = "" then "Untagged" else s

/-- Line 250: `str(tag_type) if pd.notna(tag_type) and tag_type != "" else
"Unknown"`. -/
def renderTagType : Cell → String
  | none => "Unknown"
  | some s => if s = "" then "Unknown" else s

/-- The groups of `partition_by_tags` with their display names applied. -/
def renderedGroups (t : Table) : List ((String × String) × List (List Cell)) :=
  (groupsOf t).map (fun g => ((renderTag g.1.1, renderTagType g.1.2), g.2))

/-- The sentinel stored in `file_path` once a project has been partitioned
(views.py line 288). -/
def sentinel : String := "sub_versions"

/-! ## The ingest operation (`upload_dataset`, project/views.py lines 56-224) -/

/-- Steps 4-5 of `upload_dataset`: `df.dropna(how='all')` followed by an
optional `df.drop_duplicates()`. -/
def cleanTable (remove_duplicates : Bool) (df : Table) : Table :=
  let df1 := dropEmptyRows df
  if remove_duplicates then dedupRows df1 else df1

/-- Steps 3-8 of `upload_dataset` (everything after the v0 ledger entry):
read the raw file (dispatch on the path suffix), clean the table, serialize
it as `<stem>_v1<ext>`, record v1 and point the project at it.  `p0v` is
the project document as of the v0 step, `σ4` the state after the v0 step. -/
def upload_process (rawPath : String) (content : Option Table)
    (remove_duplicates v1ok updOk : Bool) (p0v : ProjectRec) (σ4 : DBState) :
    Except ApiErr Unit × DBState :=
  -- Step 3: read the dataset (format dispatched on the path suffix)
  match extOf rawPath with
  | none => (.error .unsupportedFormat, σ4)
  | some _ =>
    match content with
    | none => (.error .readError, σ4)
    | some df =>
      -- Steps 4-5: drop empty rows, optionally deduplicate
      let df2 := cleanTable remove_duplicates df
      -- Step 6: serialize as <stem>_v1<ext> next to the raw file
      let se := splitextStr (basenameStr rawPath)
      let newPath := joinPath (dirnameStr rawPath) (se.1 ++ "_v1" ++ se.2)
      let σ5 := if se.2 = ".xlsx" ∨ se.2 = ".csv" then insertBlob newPath (some df2) σ4 else σ4
      -- Step 7: create version 1; on failure only the new blob is removed
      if ¬ v1ok then (.error (.createVersionFailed 1), removeBlob newPath σ5)
      else
        let vid1 := σ5.nextVid
        let σ6 := { σ5 with
          versions := σ5.versions ++
            [(vid1, (⟨"Processed version with cleaned data", newPath, 1⟩ : VersionRec))],
          nextVid := vid1 + 1 }
        -- Step 8: update the project pointer
        if ¬ updOk then (.error .updateFailed, removeBlob newPath σ6)
        else
          (.ok (), { σ6 with project := some ({ p0v with
              file_path := newPath,
              version_number := 1,
              version_info := p0v.version_info ++ [("v1", vid1)] }) })

/-- `upload_dataset`: store the raw upload, create the project document and
the v0 ledger entry, clean the table (drop empty rows, optionally
deduplicate), store the result as `<stem>_v1<ext>`, record v1 and point the
project at it.  The `*Ok` flags are the outcomes of the checked store calls
(`save_file`, `create_project`, `create_version` v0/v1,
`update_all_fields`); `content` is the parse result of the uploaded bytes
(`none` = pandas raises). -/
def upload_dataset (name filename : String) (content : Option Table)
    (remove_duplicates saveOk projOk v0ok v1ok updOk : Bool)
    (σ : DBState) : Except ApiErr Unit × DBState :=
  -- save_file: write the raw upload under datasets/<name>/<filename>
  if ¬ saveOk then (.error .saveFailed, σ)
  else
    let projectFolder := joinPath uploadFolder name
    let rawPath := joinPath projectFolder filename
    let σ1 := insertBlob rawPath content σ
    -- Step 1: create the project document
    if ¬ projOk then (.error .createProjectFailed, removeBlob rawPath σ1)
    else
      let p0 : ProjectRec := ⟨name, rawPath, remove_duplicates, [], 0, []⟩
      let σ2 := { σ1 with project := some p0 }
      -- Step 2: create version 0; on failure remove the blob AND delete the project
      if ¬ v0ok then
        (.error (.createVersionFailed 0), { removeBlob rawPath σ2 with project := none })
      else
        let vid0 := σ2.nextVid
        let σ3 := { σ2 with
          versions := σ2.versions ++ [(vid0, (⟨"Initial version", rawPath, 0⟩ : VersionRec))],
          nextVid := vid0 + 1 }
        let p0v := { p0 with version_info := [("v0", vid0)] }
        let σ4 := { σ3 with project := some p0v }
        upload_process rawPath content remove_duplicates v1ok updOk p0v σ4

/-! ## Column discovery (`get_column_names`, dataset/views.py lines 56-89) -/

/-- `get_column_names`: read the header of the project's current file.
Read-only: the state is returned unchanged on every path. -/
def get_column_names (σ : DBState) : Except ApiErr (List String) × DBState :=
  match σ.project with
  | none => (.error .projectNotFound, σ)
  | some p =>
    if p.file_path = "" then (.error .fileNotFound, σ)
    else
      match lookupBlob σ p.file_path with
      | none => (.error .fileNotFound, σ)
      | some content =>
        match extOf p.file_path with
        | none => (.error .unsupportedFormat, σ)
        | some _ =>
          match content with
          | none => (.error .readError, σ)
          | some df => (.ok df.cols, σ)

/-! ## Column renaming (`update_column_names`, dataset/views.py lines 91-191) -/

/-- `update_column_names`: rename columns of the current file according to
the mapping (entries with blank new names dropped first), save as
`<stem.replace('_v1','')>_v2<ext>`, record a v2 ledger entry and repoint the
project.  `mapping = none` models a missing/unparsable `mapped_columns`
field; `verOk`/`updOk` are the outcomes of `create_version` and
`update_all_fields`. -/
def update_column_names (mapping : Option (List (String × String)))
    (verOk updOk : Bool) (σ : DBState) : Except ApiErr Unit × DBState :=
  match mapping with
  | none => (.error .missingField, σ)
  | some m =>
    let filtered := filterMapping m
    -- Step 1: fetch the project and check its current file exists
    match σ.project with
    | none => (.error .projectNotFound, σ)
    | some p =>
      if p.file_path = "" then (.error .fileNotFound, σ)
      else
        match lookupBlob σ p.file_path with
        | none => (.error .fileNotFound, σ)
        | some content =>
          -- Step 2: load the dataset
          match extOf p.file_path with
          | none => (.error .unsupportedFormat, σ)
          | some _ =>
            match content with
            | none => (.error .readError, σ)
            | some df =>
              -- Step 3: rename the columns
              let df2 : Table := ⟨applyMapping filtered df.cols, df.rows⟩
              -- Step 4: save under the v2 name
              let se := splitextStr (basenameStr p.file_path)
              let newPath := joinPath (dirnameStr p.file_path) (v2name se.1 se.2)
              let σa := if se.2 = ".xlsx" ∨ se.2 = ".csv" then insertBlob newPath (some df2) σ else σ
              -- Step 5: create version 2; on failure remove the new blob
              if ¬ verOk then (.error (.createVersionFailed 2), removeBlob newPath σa)
              else
                let vid := σa.nextVid
                let σb := { σa with
                  versions := σa.versions ++ [(vid, (⟨"Updated column names", newPath, 2⟩ : VersionRec))],
                  nextVid := vid + 1 }
                -- Step 6: repoint the project; on failure remove the new blob
                -- (the v2 ledger entry remains, as in the source)
                if ¬ updOk then (.error .updateFailed, removeBlob newPath σb)
                else
                  (.ok (), { σb with project := some ({ p with
                    file_path := newPath, version_number := 2 }) })

/-! ## Partitioning (`partition_by_tags`, dataset/views.py lines 193-303) -/

/-- The loop body of `partition_by_tags` (lines 248-282): for each group, in
iteration order, serialize the sub-table as
`<tag>_<tagType>_v2.<counter><ext>`, record a ledger entry with version
number `float(f"2.{counter}")`, and collect a partition descriptor when the
`create_version` call returned an id (`verOk`). The counter increments for
every group. -/
def partLoop (folder ext : String) (cols : List String) (verOk : Bool) :
    Nat → List ((Cell × Cell) × List (List Cell)) → DBState →
    List SubVersion × DBState
  | _, [], σ => ([], σ)
  | c, g :: gs, σ =>
    let tagName := renderTag g.1.1
    let typeName := renderTagType g.1.2
    let fileBase := tagName ++ "_" ++ typeName ++ "_v2." ++ toString c ++ ext
    let path := joinPath folder fileBase
    let σa := insertBlob path (some ⟨cols, g.2⟩) σ
    if verOk then
      let vid := σa.nextVid
      let σb := { σa with
        versions := σa.versions ++
          [(vid, (⟨"Partitioned by " ++ tagName ++ " - " ++ typeName, path, pyFloat2N c⟩ : VersionRec))],
        nextVid := vid + 1 }
      let r := partLoop folder ext cols verOk (c + 1) gs σb
      (⟨vid, tagName, typeName, path, pyFloat2N c⟩ :: r.1, r.2)
    else
      partLoop folder ext cols verOk (c + 1) gs σa

/-- `partition_by_tags`: split the current file by `(Tags, Tag Type)` into
one file and ledger entry per group, then replace the project's `file_path`
with the `"sub_versions"` sentinel, set `sub_versions` to the descriptor
list and `version_number` to 2.  Both tag columns must exist (fatal check
before anything is written). -/
def partition_by_tags (verOk : Bool) (σ : DBState) : Except ApiErr Unit × DBState :=
  -- Step 1: fetch the project and check its current file exists
  match σ.project with
  | none => (.error .projectNotFound, σ)
  | some p =>
    if p.file_path = "" then (.error .fileNotFound, σ)
    else
      match lookupBlob σ p.file_path with
      | none => (.error .fileNotFound, σ)
      | some content =>
        -- Step 2: load the dataset
        match extOf p.file_path with
        | none => (.error .unsupportedFormat, σ)
        | some ext =>
          match content with
          | none => (.error .readError, σ)
          | some df =>
            -- Step 3: both tag columns must exist before anything is written
            if "Tags" ∈ df.cols then
              if "Tag Type" ∈ df.cols then
                -- Step 4: partition and save the files
                let folder := joinPath uploadFolder p.name
                let r := partLoop folder ext df.cols verOk 1 (groupsOf df)  σ
                -- Step 5: point the project at the sentinel
                (.ok (), { r.2 with project := some ({ p with
                  file_path := sentinel, sub_versions := r.1, version_number := 2 }) })
              else (.error (.missingColumn "Tag Type"), σ)
            else (.error (.missingColumn "Tags"), σ)

/-! ## Auxiliary definitions used by the statements -/

/-- Default ledger entry for `List.getD` lookups in statements. -/
def defaultEntry : Nat × VersionRec := (0, ⟨"", "", 0⟩)

/-- Default group for `List.getD` lookups in statements. -/
def defaultGroup : (Cell × Cell) × List (List Cell) := ((none, none), [])

/-- The ledger entries appended by `partLoop` when every `create_version`
call succeeds, starting from ledger id `vid` and counter `c` (used to
characterise `partLoop`). -/
def entriesFor (folder ext : String) :
    Nat → Nat → List ((Cell × Cell) × List (List Cell)) → List (Nat × VersionRec)
  | _, _, [] => []
  | vid, c, g :: gs =>
    (vid, ⟨"Partitioned by " ++ renderTag g.1.1 ++ " - " ++ renderTagType g.1.2,
      joinPath folder (renderTag g.1.1 ++ "_" ++ renderTagType g.1.2 ++ "_v2." ++
        toString c ++ ext),
      pyFloat2N c⟩) :: entriesFor folder ext (vid + 1) (c + 1) gs

/-- Modelled from the spec: the renamed-file naming rule as the spec words
it — "the current file's base name with its trailing `_v1` suffix removed,
followed by `_v2` and the original extension".  Used only to compare the
spec's rule against the code's `v2name`. -/
def v2nameSpec (stem ext : String) : String :=
  (if endsWith' stem "_v1" then String.mk (stem.data.take (stem.data.length - 3)) else stem)
    ++ "_v2" ++ ext

/-- The state `upload_dataset` has built right after the v0 step: project
document with the v0 reference, one v0 ledger entry, and the raw blob. -/
def postV0 (name filename : String) (content : Option Table) (rd : Bool) : DBState :=
  ⟨some ⟨name, joinPath (joinPath uploadFolder name) filename, rd, [("v0", 0)], 0, []⟩,
   [(0, ⟨"Initial version", joinPath (joinPath uploadFolder name) filename, 0⟩)], 1,
   [(joinPath (joinPath uploadFolder name) filename, content)]⟩

/-- A 10-row table with ten distinct tags (so partitioning produces ten
groups and version counters 1..10). -/
def T10 : Table :=
  ⟨["Tags", "Tag Type"],
   [[some "a", some "X"], [some "b", some "X"], [some "c", some "X"],
    [some "d", some "X"], [some "e", some "X"], [some "f", some "X"],
    [some "g", some "X"], [some "h", some "X"], [some "i", some "X"],
    [some "j", some "X"]]⟩

/-- A project state holding `T10` as its current file. -/
def S6 : DBState :=
  ⟨some ⟨"p", "datasets/p/f.csv", false, [], 2, []⟩, [], 0,
   [("datasets/p/f.csv", some T10)]⟩

/-- A small table with both tag columns (concrete witness input). -/
def dfW : Table := ⟨["Tags", "Tag Type"], [[some "A", some "X"]]⟩

/-- A project document pointing at `datasets/p/f.csv` (witness input). -/
def pW : ProjectRec := ⟨"p", "datasets/p/f.csv", false, [], 2, []⟩

/-- A state holding `dfW` as the project's current file (witness input). -/
def SW : DBState := ⟨some pW, [], 0, [("datasets/p/f.csv", some dfW)]⟩

/-- A table lacking the `Tag Type` column (witness input). -/
def dfW7 : Table := ⟨["Tags"], [[some "A"]]⟩

/-- A state whose current file lacks the `Tag Type` column (witness input). -/
def SW7 : DBState := ⟨some pW, [], 0, [("datasets/p/f.csv", some dfW7)]⟩

/-! ## Helper lemmas -/

/-- `(a ++ b).data = a.data ++ b.data`. -/
theorem strData_append (a b : String) : (a ++ b).data = a.data ++ b.data := rfl

/-- Strings with different character lists are different. -/
theorem str_ne_of_data_ne {a b : String} (h : a.data ≠ b.data) : a ≠ b :=
  fun e => h (congrArg String.data e)

/-- A path built by `joinPath` from a nonempty directory contains a slash,
so it can never be the `"sub_versions"` sentinel. -/
theorem joinPath_ne_sentinel (a b : String) (ha : a ≠ "") :
    joinPath a b ≠ sentinel := by
  have hmem : '/' ∈ (joinPath a b).data := by
    simp only [joinPath, if_neg ha, strData_append]
    simp
  intro e
  rw [e] at hmem
  simp [sentinel] at hmem

/-- `List.lookup` misses when no key matches. -/
theorem lookup_eq_none_of_forall {β : Type} (l : List (String × β)) (k : String)
    (h : ∀ b ∈ l, b.1 ≠ k) : l.lookup k = none := by
  induction l with
  | nil => rfl
  | cons b rest ih =>
    obtain ⟨bk, bv⟩ := b
    have hb : (k == bk) = false := by
      have hne := h (bk, bv) (List.mem_cons_self _ _)
      simp only [beq_eq_false_iff_ne, ne_eq]
      exact fun e => hne e.symm
    rw [List.lookup, hb]
    exact ih (fun x hx => h x (List.mem_cons_of_mem _ hx))

/-- `removeV1` leaves a string without `_v1` untouched. -/
theorem removeV1_of_not_hasV1 :
    ∀ cs : List Char, hasV1 cs = false → removeV1 cs = cs := by
  intro cs
  induction cs with
  | nil => intro _; rfl
  | cons c rest ih =>
    intro h
    match rest with
    | [] => rfl
    | [c2] => rfl
    | c2 :: c3 :: rest' =>
      rw [hasV1] at h
      rcases Bool.or_eq_false_iff.mp h with ⟨h1, h2⟩
      rw [removeV1, if_neg (by simp [h1]), ih h2]

/-- Appending `_v1` to a string without `_v1` and then running
`replace('_v1','')` gives back the original string (the trailing occurrence
is removed, nothing else changes). -/
theorem removeV1_append_v1 :
    ∀ cs : List Char, hasV1 cs = false →
      removeV1 (cs ++ ['_', 'v', '1']) = cs := by
  intro cs
  induction cs with
  | nil => intro _; rfl
  | cons c rest ih =>
    intro h
    match rest with
    | [] =>
      show removeV1 (c :: '_' :: 'v' :: '1' :: []) = [c]
      rw [removeV1, if_neg (by simp), removeV1, if_pos (by simp)]
      rfl
    | [c2] =>
      show removeV1 (c :: c2 :: '_' :: 'v' :: '1' :: []) = [c, c2]
      rw [removeV1, if_neg (by simp), removeV1, if_neg (by simp),
        removeV1, if_pos (by simp)]
      rfl
    | c2 :: c3 :: rest' =>
      rw [hasV1] at h
      rcases Bool.or_eq_false_iff.mp h with ⟨h1, h2⟩
      show removeV1 ((c :: c2 :: c3 :: rest') ++ ['_', 'v', '1']) = c :: c2 :: c3 :: rest'
      simp only [List.cons_append]
      rw [removeV1, if_neg (by simp [h1])]
      simp only [← List.cons_append]
      exact congrArg (c :: ·) (ih h2)

/-- A path built by `joinPath` from a nonempty directory is nonempty. -/
theorem joinPath_ne_empty (a b : String) (ha : a ≠ "") : joinPath a b ≠ "" := by
  have hmem : '/' ∈ (joinPath a b).data := by
    simp only [joinPath, if_neg ha, strData_append]
    simp
  intro e
  rw [e] at hmem
  simp at hmem

/-- `getD` after skipping a prefix of an append. -/
theorem getD_append_right' {α : Type} (l1 l2 : List α) (i : Nat) (d : α) :
    (l1 ++ l2).getD (l1.length + i) d = l2.getD i d := by
  induction l1 with
  | nil => simp
  | cons a l ih => simpa [Nat.succ_add] using ih

/-- Two decimal literals `2.m` and `2.n` with the same number of digits
after the point denote different rationals when `m ≠ n`. -/
theorem pyFloat2N_ne_of_numDigits_eq {m n : Nat} (hd : numDigits m = numDigits n)
    (hne : m ≠ n) : pyFloat2N m ≠ pyFloat2N n := by
  intro e
  apply hne
  have h10 : ((10 : ℚ) ^ numDigits n) ≠ 0 := by positivity
  rw [pyFloat2N, pyFloat2N, hd, add_right_inj, div_eq_div_iff h10 h10,
    mul_left_inj' h10] at e
  exact_mod_cast e

/-- When every `create_version` succeeds, the partition loop appends exactly
the entries described by `entriesFor`. -/
theorem partLoop_versions (folder ext : String) (cols : List String) :
    ∀ (gs : List ((Cell × Cell) × List (List Cell))) (c : Nat) (σ : DBState),
      (partLoop folder ext cols true c gs σ).2.versions
        = σ.versions ++ entriesFor folder ext σ.nextVid c gs := by
  intro gs
  induction gs with
  | nil => intro c σ; simp [partLoop, entriesFor]
  | cons g gs ih =>
    intro c σ
    simp only [partLoop, if_true, insertBlob]
    rw [ih]
    simp [entriesFor]

/-- One ledger entry per group. -/
theorem entriesFor_length (folder ext : String) :
    ∀ (gs : List ((Cell × Cell) × List (List Cell))) (vid c : Nat),
      (entriesFor folder ext vid c gs).length = gs.length := by
  intro gs
  induction gs with
  | nil => intro vid c; rfl
  | cons g gs ih => intro vid c; simp [entriesFor, ih]

/-- The i-th appended ledger entry carries counter `c + i` in both its file
name and its version number. -/
theorem entriesFor_getD (folder ext : String) :
    ∀ (gs : List ((Cell × Cell) × List (List Cell))) (vid c i : Nat), i < gs.length →
      (entriesFor folder ext vid c gs).getD i defaultEntry
        = (vid + i,
           ⟨"Partitioned by " ++ renderTag (gs.getD i defaultGroup).1.1 ++ " - " ++
              renderTagType (gs.getD i defaultGroup).1.2,
            joinPath folder (renderTag (gs.getD i defaultGroup).1.1 ++ "_" ++
              renderTagType (gs.getD i defaultGroup).1.2 ++ "_v2." ++ toString (c + i) ++ ext),
            pyFloat2N (c + i)⟩) := by
  intro gs
  induction gs with
  | nil => intro vid c i hi; simp at hi
  | cons g gs ih =>
    intro vid c i hi
    match i with
    | 0 => simp [entriesFor]
    | i + 1 =>
      have hi' : i < gs.length := by simpa using hi
      have h1 : vid + 1 + i = vid + (i + 1) := by omega
      have h2 : c + 1 + i = c + (i + 1) := by omega
      simp only [entriesFor, List.getD_cons_succ, ih (vid + 1) (c + 1) i hi', h1, h2]

/-- Every blob the partition loop writes lives under `folder`, so the
blob store never acquires a key equal to the `"sub_versions"` sentinel. -/
theorem partLoop_blobs_no_sentinel (folder ext : String) (cols : List String)
    (verOk : Bool) (hf : folder ≠ "") :
    ∀ (gs : List ((Cell × Cell) × List (List Cell))) (c : Nat) (σ : DBState),
      (∀ b ∈ σ.blobs, b.1 ≠ sentinel) →
      ∀ b ∈ (partLoop folder ext cols verOk c gs σ).2.blobs, b.1 ≠ sentinel := by
  intro gs
  induction gs with
  | nil => intro c σ h; simpa [partLoop] using h
  | cons g gs ih =>
    intro c σ h
    have hins : ∀ b ∈ ((joinPath folder (renderTag g.1.1 ++ "_" ++ renderTagType g.1.2 ++
        "_v2." ++ toString c ++ ext), some (⟨cols, g.2⟩ : Table)) :: σ.blobs), b.1 ≠ sentinel := by
      intro b hb
      rcases List.mem_cons.mp hb with hb | hb
      · rw [hb]
        exact joinPath_ne_sentinel folder _ hf
      · exact h b hb
    cases verOk with
    | false =>
      simp only [partLoop, if_neg (by simp : ¬ (false = true))]
      exact ih (c + 1) _ hins
    | true =>
      simp only [partLoop, if_pos rfl]
      exact ih (c + 1) _ hins

/-- On a well-formed project whose current file holds a table with both tag
columns, `partition_by_tags` takes its success path: it runs the loop and
repoints the project at the `"sub_versions"` sentinel. -/
theorem partition_success_run
    (σ : DBState) (p : ProjectRec) (df : Table) (e : String) (verOk : Bool)
    (hp : σ.project = some p) (hfp : p.file_path ≠ "")
    (hb : lookupBlob σ p.file_path = some (some df))
    (hext : extOf p.file_path = some e)
    (htag : "Tags" ∈ df.cols) (htt : "Tag Type" ∈ df.cols) :
    partition_by_tags verOk σ =
      (.ok (),
        { (partLoop (joinPath uploadFolder p.name) e df.cols verOk 1 (groupsOf df) σ).2 with
          project := some ({ p with
                file_path := sentinel,
                sub_versions :=
                  (partLoop (joinPath uploadFolder p.name) e df.cols verOk 1 (groupsOf df) σ).1,
                version_number := 2 }) }) := by
  simp only [partition_by_tags, hp, hb, hext, if_neg hfp, if_pos htag, if_pos htt]

/-- Looking a key up in a filtered association list: entries whose key is a
column of the table are unaffected by restricting the list to such keys. -/
theorem lookup_filter_mem {β : Type} (cols : List String) (c : String) (hc : c ∈ cols) :
    ∀ m : List (String × β),
      (m.filter (fun q => decide (q.1 ∈ cols))).lookup c = m.lookup c := by
  intro m
  induction m with
  | nil => rfl
  | cons q rest ih =>
    obtain ⟨qk, qv⟩ := q
    by_cases hqc : c = qk
    · subst hqc
      have hck : decide (c ∈ cols) = true := by simpa using hc
      simp [List.filter_cons, hck, List.lookup]
    · have hne : (c == qk) = false := by simpa using hqc
      by_cases hq : qk ∈ cols
      · have hqk : decide (qk ∈ cols) = true := by simpa using hq
        simp [List.filter_cons, hqk, List.lookup, hne, ih]
      · have hqk : decide (qk ∈ cols) = false := by simpa using hq
        simp [List.filter_cons, hqk, List.lookup, hne, ih]

/-! ## Claim C1: tag/tag-type grouping -/

/-- C1: `partition_by_tags` groups rows by their `(Tags, Tag Type)` value
pair, rendering a missing or blank tag as `"Untagged"` and a missing or
blank tag type as `"Unknown"`; on the table with rows
`(Tags, Tag Type) = ("A","X"), ("",""), (NaN,"Y")` it produces exactly
three groups — `("A","X")` with one row, `("Untagged","Unknown")` with one
row, and `("Untagged","Y")` with one row — so blank-tag rows group
separately per tag-type value instead of merging into one Untagged group. -/
theorem partition_by_tags_grouping :
    (renderTag none = "Untagged" ∧ renderTag (some "") = "Untagged" ∧
      renderTagType none = "Unknown" ∧ renderTagType (some "") = "Unknown" ∧
      (∀ s : String, s ≠ "" → renderTag (some s) = s ∧ renderTagType (some s) = s)) ∧
    (∀ (t : Table) (g : (Cell × Cell) × List (List Cell)), g ∈ groupsOf t →
      ∀ r ∈ g.2, rowKey (idxOf "Tags" t.cols) (idxOf "Tag Type" t.cols) r = g.1) ∧
    (renderedGroups ⟨["Tags", "Tag Type"],
        [[some "A", some "X"], [some "", some ""], [none, some "Y"]]⟩ =
      [(("Untagged", "Unknown"), [[some "", some ""]]),
       (("A", "X"), [[some "A", some "X"]]),
       (("Untagged", "Y"), [[none, some "Y"]])]) := by
  refine ⟨⟨rfl, rfl, rfl, rfl, ?_⟩, ?_, by decide⟩
  · intro s hs
    exact ⟨by simp [renderTag, hs], by simp [renderTagType, hs]⟩
  · intro t g hg r hr
    simp only [groupsOf, List.mem_map] at hg
    obtain ⟨k, hk, rfl⟩ := hg
    simp only [List.mem_filter] at hr
    exact of_decide_eq_true hr.2

/-- C1 witness: the theorem applied at concrete inputs. -/
theorem partition_by_tags_grouping_witness :
    (renderTag (some "A") = "A" ∧ renderTagType (some "X") = "X") ∧
    (∀ r ∈ [[some "A", some "X"]], rowKey 0 1 r = (some "A", some "X")) := by
  refine ⟨⟨(partition_by_tags_grouping.1.2.2.2.2 "A" (by decide)).1,
           (partition_by_tags_grouping.1.2.2.2.2 "X" (by decide)).2⟩, ?_⟩
  exact partition_by_tags_grouping.2.1 (⟨["Tags", "Tag Type"], [[some "A", some "X"]]⟩ : Table)
    ((some "A", some "X"), [[some "A", some "X"]]) (by decide)

/-! ## Claim C2: end-to-end ingest with cleaning and dedup -/

/-- C2: uploading a three-row CSV consisting of a data row, a fully empty
row and an exact duplicate of the data row, with `remove_duplicates=true`,
stores the raw upload as v0, drops the empty row, deduplicates, records the
cleaned file as v1 with exactly one data row, leaves exactly two ledger
entries (v0 and v1), and points the project at v1's location with version
number 1. -/
theorem upload_dataset_clean_dedupe
    (cols : List String) (r emptyRow : List Cell)
    (hr : r.any Option.isSome = true) (he : emptyRow.any Option.isSome = false) :
    upload_dataset "proj" "data.csv" (some ⟨cols, [r, emptyRow, r]⟩) true
        true true true true true emptyState
      = (.ok (), ⟨some ⟨"proj", "datasets/proj/data_v1.csv", true, [("v0", 0), ("v1", 1)], 1, []⟩,
          [(0, ⟨"Initial version", "datasets/proj/data.csv", 0⟩),
           (1, ⟨"Processed version with cleaned data", "datasets/proj/data_v1.csv", 1⟩)],
          2,
          [("datasets/proj/data_v1.csv", some ⟨cols, [r]⟩),
           ("datasets/proj/data.csv", some ⟨cols, [r, emptyRow, r]⟩)]⟩) := by
  have hgen : ∀ df : Table,
      upload_dataset "proj" "data.csv" (some df) true true true true true true emptyState
        = (.ok (), ⟨some ⟨"proj", "datasets/proj/data_v1.csv", true, [("v0", 0), ("v1", 1)], 1, []⟩,
            [(0, ⟨"Initial version", "datasets/proj/data.csv", 0⟩),
             (1, ⟨"Processed version with cleaned data", "datasets/proj/data_v1.csv", 1⟩)],
            2,
            [("datasets/proj/data_v1.csv", some (cleanTable true df)),
             ("datasets/proj/data.csv", some df)]⟩) := fun df => rfl
  rw [hgen]
  have hclean : cleanTable true ⟨cols, [r, emptyRow, r]⟩ = (⟨cols, [r]⟩ : Table) := by
    simp [cleanTable, dropEmptyRows, dedupRows, List.filter_cons, hr, he, dedupFirstAux]
  rw [hclean]

/-- C2 witness: the theorem applied at a concrete three-row table. -/
theorem upload_dataset_clean_dedupe_witness :
    upload_dataset "proj" "data.csv"
        (some ⟨["c1", "c2"], [[some "a", some "b"], [none, none], [some "a", some "b"]]⟩) true
        true true true true true emptyState
      = (.ok (), ⟨some ⟨"proj", "datasets/proj/data_v1.csv", true, [("v0", 0), ("v1", 1)], 1, []⟩,
          [(0, ⟨"Initial version", "datasets/proj/data.csv", 0⟩),
           (1, ⟨"Processed version with cleaned data", "datasets/proj/data_v1.csv", 1⟩)],
          2,
          [("datasets/proj/data_v1.csv", some ⟨["c1", "c2"], [[some "a", some "b"]]⟩),
           ("datasets/proj/data.csv", some ⟨["c1", "c2"],
              [[some "a", some "b"], [none, none], [some "a", some "b"]]⟩)]⟩) :=
  upload_dataset_clean_dedupe ["c1", "c2"] [some "a", some "b"] [none, none] (by decide) (by decide)

/-! ## Claim C3: rename semantics -/

/-- C3: `update_column_names` renames exactly the columns whose mapping
entry has a non-blank new name and whose old name is a column: entries with
an empty/whitespace new name are dropped from the mapping before applying,
entries whose old name matches no column have no effect and raise no error,
and the endpoint run with mapping `{"Old": "New", "Missing": "X"}` on
columns `["Old", "Other"]` succeeds and produces columns `["New", "Other"]`. -/
theorem update_column_names_rename :
    (∀ (cols : List String) (old new : String) (rest : List (String × String)),
      pyStrip new = "" →
      applyMapping (filterMapping ((old, new) :: rest)) cols
        = applyMapping (filterMapping rest) cols) ∧
    (∀ (m : List (String × String)) (cols : List String),
      applyMapping (m.filter (fun q => decide (q.1 ∈ cols))) cols = applyMapping m cols) ∧
    ((update_column_names (some [("Old", "New"), ("Missing", "X")]) true true
        ⟨some ⟨"p", "datasets/p/data_v1.csv", false, [], 1, []⟩, [], 0,
         [("datasets/p/data_v1.csv", some ⟨["Old", "Other"], [[some "1", some "2"]]⟩)]⟩).1
      = .ok ()) ∧
    (lookupBlob (update_column_names (some [("Old", "New"), ("Missing", "X")]) true true
        ⟨some ⟨"p", "datasets/p/data_v1.csv", false, [], 1, []⟩, [], 0,
         [("datasets/p/data_v1.csv", some ⟨["Old", "Other"], [[some "1", some "2"]]⟩)]⟩).2
        "datasets/p/data_v2.csv"
      = some (some ⟨["New", "Other"], [[some "1", some "2"]]⟩)) := by
  refine ⟨?_, ?_, by decide, by decide⟩
  · intro cols old new rest h
    have hd : (decide (pyStrip new ≠ "")) = false := by simp [h]
    simp [filterMapping, List.filter_cons, hd, h]
  · intro m cols
    unfold applyMapping
    apply List.map_congr_left
    intro c hc
    rw [lookup_filter_mem cols c hc m]

/-- C3 witness: the theorem applied at concrete inputs (a whitespace new
name is dropped; an unmatched old name has no effect). -/
theorem update_column_names_rename_witness :
    applyMapping (filterMapping [("A", "  ")]) ["A"] = applyMapping (filterMapping []) ["A"] ∧
    applyMapping ([("Missing", "X")].filter (fun q => decide (q.1 ∈ ["Old", "Other"])))
        ["Old", "Other"]
      = applyMapping [("Missing", "X")] ["Old", "Other"] :=
  ⟨update_column_names_rename.1 ["A"] "A" "  " [] (by decide),
   update_column_names_rename.2.1 [("Missing", "X")] ["Old", "Other"]⟩

/-! ## Claim C4: cleanup when a version step fails during ingest -/

/-- C4 counterexample: when the v1 `create_version` call fails during an
ingest whose project record already exists, the project record is NOT
deleted — it survives the failed ingest, contradicting the claim that every
version-step failure deletes the project record. -/
theorem upload_dataset_v1_failure_keeps_project_cex :
    (upload_dataset "p" "data.csv" (some ⟨["a"], [[some "x"]]⟩) false
        true true true false true emptyState).1 = .error (.createVersionFailed 1) ∧
    ((upload_dataset "p" "data.csv" (some ⟨["a"], [[some "x"]]⟩) false
        true true true false true emptyState).2.project).isSome = true :=
  ⟨by decide, by decide⟩

/-- C4 (amended): when the v0 `create_version` fails, the raw blob is
removed and the project record is deleted (the state returns to empty);
when the v1 `create_version` fails, only the newly written v1 blob is
removed — the project record survives with its v0 ledger entry and the raw
blob, pointing at the raw file with version number 0. -/
theorem upload_dataset_version_failure_cleanup :
    (∀ (name filename : String) (content : Option Table) (rd : Bool),
      upload_dataset name filename content rd true true false true true emptyState
        = (.error (.createVersionFailed 0), emptyState)) ∧
    (∀ (df : Table) (rd : Bool),
      upload_dataset "p" "data.csv" (some df) rd true true true false true emptyState
        = (.error (.createVersionFailed 1),
            ⟨some ⟨"p", "datasets/p/data.csv", rd, [("v0", 0)], 0, []⟩,
             [(0, ⟨"Initial version", "datasets/p/data.csv", 0⟩)], 1,
             [("datasets/p/data.csv", some df)]⟩)) := by
  constructor
  · intro name filename content rd
    simp [upload_dataset, insertBlob, removeBlob, emptyState]
  · intro df rd
    rfl

/-! ## Claim C5: the renamed file's name -/

/-- C5 counterexample: `update_column_names` on a current file named
`report_v1_v1.csv` produces `report_v2.csv` — `str.replace('_v1', '')`
removes every occurrence of `_v1` — whereas the claimed rule (strip one
trailing `_v1`) yields `report_v1_v2.csv`. -/
theorem update_column_names_v2_name_cex :
    ((update_column_names (some []) true true
        ⟨some ⟨"p", "datasets/p/report_v1_v1.csv", false, [], 1, []⟩, [], 0,
         [("datasets/p/report_v1_v1.csv", some ⟨["Old"], [[some "1"]]⟩)]⟩).2.project).map
        ProjectRec.file_path = some "datasets/p/report_v2.csv" ∧
    v2nameSpec "report_v1_v1" ".csv" = "report_v1_v2.csv" ∧
    ("datasets/p/report_v2.csv" : String)
      ≠ joinPath "datasets/p" (v2nameSpec "report_v1_v1" ".csv") :=
  ⟨by decide, by decide, by decide⟩

/-- C5 (amended): the output file name is the base name with every
occurrence of `_v1` removed, then `_v2` and the extension; when `_v1`
occurs in the base name only as the trailing suffix (or not at all), this
coincides with the claimed rule, and all other characters are preserved. -/
theorem update_column_names_v2_naming (b e : String) (h : hasV1 b.data = false) :
    v2name (b ++ "_v1") e = b ++ "_v2" ++ e ∧ v2name b e = b ++ "_v2" ++ e := by
  constructor
  · show String.mk (removeV1 (b ++ "_v1").data) ++ "_v2" ++ e = b ++ "_v2" ++ e
    rw [strData_append]
    have h1 : ("_v1" : String).data = ['_', 'v', '1'] := rfl
    rw [h1, removeV1_append_v1 b.data h]
  · show String.mk (removeV1 b.data) ++ "_v2" ++ e = b ++ "_v2" ++ e
    rw [removeV1_of_not_hasV1 b.data h]

/-- C5 witness: the amended theorem applied at a concrete base name. -/
theorem update_column_names_v2_naming_witness :
    v2name ("report" ++ "_v1") ".csv" = "report" ++ "_v2" ++ ".csv" ∧
    v2name "report" ".csv" = "report" ++ "_v2" ++ ".csv" :=
  update_column_names_v2_naming "report" ".csv" (by decide)

/-! ## Claim C6: partition file names and version numbers -/

/-- C6 counterexample: partitioning a table with ten tag groups records the
first group (counter 1, file suffix `_v2.1`) and the tenth group (counter
10, file suffix `_v2.10`) with the SAME version number, because
`float("2.1") = float("2.10")` — distinct version counters do not always
yield distinct recorded version numbers. -/
theorem partition_by_tags_version_collision_cex :
    (partition_by_tags true S6).2.versions.length = 10 ∧
    ((partition_by_tags true S6).2.versions.getD 0 defaultEntry).2.files_path
      = "datasets/p/a_X_v2.1.csv" ∧
    ((partition_by_tags true S6).2.versions.getD 9 defaultEntry).2.files_path
      = "datasets/p/j_X_v2.10.csv" ∧
    ((partition_by_tags true S6).2.versions.getD 0 defaultEntry).2.version_number
      = ((partition_by_tags true S6).2.versions.getD 9 defaultEntry).2.version_number := by
  have hlen : (partition_by_tags true S6).2.versions.length = 10 := by decide
  have hf0 : ((partition_by_tags true S6).2.versions.getD 0 defaultEntry).2.files_path
      = "datasets/p/a_X_v2.1.csv" := by decide
  have hf9 : ((partition_by_tags true S6).2.versions.getD 9 defaultEntry).2.files_path
      = "datasets/p/j_X_v2.10.csv" := by decide
  have hv : ((partition_by_tags true S6).2.versions.getD 0 defaultEntry).2.version_number
      = ((partition_by_tags true S6).2.versions.getD 9 defaultEntry).2.version_number := by
    show pyFloat2N 1 = pyFloat2N 10
    have h1 : numDigits 1 = 1 := by decide
    have h10 : numDigits 10 = 2 := by decide
    norm_num [pyFloat2N, h1, h10]
  exact ⟨hlen, hf0, hf9, hv⟩

/-- C6 (amended): on a successful partition the Nth group in iteration
order (N starting at 1) is serialized to
`{tag}_{tagType}_v2.{N}{ext}` and recorded with version number equal to the
exact value of the decimal literal `2.N`; version counters with the same
number of digits yield distinct recorded version numbers (counters
differing only by trailing zeros, such as 1 and 10, collide). -/
theorem partition_by_tags_version_numbering
    (σ : DBState) (p : ProjectRec) (df : Table) (e : String)
    (hp : σ.project = some p) (hfp : p.file_path ≠ "")
    (hb : lookupBlob σ p.file_path = some (some df))
    (hext : extOf p.file_path = some e)
    (htag : "Tags" ∈ df.cols) (htt : "Tag Type" ∈ df.cols) :
    (partition_by_tags true σ).1 = .ok () ∧
    (partition_by_tags true σ).2.versions.length
      = σ.versions.length + (groupsOf df).length ∧
    (∀ i, i < (groupsOf df).length →
      ((partition_by_tags true σ).2.versions.getD (σ.versions.length + i) defaultEntry).2.files_path
        = joinPath (joinPath uploadFolder p.name)
            (renderTag ((groupsOf df).getD i defaultGroup).1.1 ++ "_" ++
             renderTagType ((groupsOf df).getD i defaultGroup).1.2 ++
             "_v2." ++ toString (i + 1) ++ e) ∧
      ((partition_by_tags true σ).2.versions.getD (σ.versions.length + i) defaultEntry).2.version_number
        = pyFloat2N (i + 1)) ∧
    (∀ i j, i < (groupsOf df).length → j < (groupsOf df).length → i ≠ j →
      numDigits (i + 1) = numDigits (j + 1) →
      ((partition_by_tags true σ).2.versions.getD (σ.versions.length + i) defaultEntry).2.version_number
        ≠ ((partition_by_tags true σ).2.versions.getD (σ.versions.length + j) defaultEntry).2.version_number) := by
  have hrun := partition_success_run σ p df e true hp hfp hb hext htag htt
  have hv : (partition_by_tags true σ).2.versions
      = σ.versions ++ entriesFor (joinPath uploadFolder p.name) e σ.nextVid 1 (groupsOf df) := by
    rw [hrun]
    exact partLoop_versions _ _ _ _ _ _
  have hget : ∀ i, i < (groupsOf df).length →
      ((partition_by_tags true σ).2.versions.getD (σ.versions.length + i) defaultEntry)
        = (σ.nextVid + i,
           ⟨"Partitioned by " ++ renderTag ((groupsOf df).getD i defaultGroup).1.1 ++ " - " ++
              renderTagType ((groupsOf df).getD i defaultGroup).1.2,
            joinPath (joinPath uploadFolder p.name)
              (renderTag ((groupsOf df).getD i defaultGroup).1.1 ++ "_" ++
               renderTagType ((groupsOf df).getD i defaultGroup).1.2 ++
               "_v2." ++ toString (i + 1) ++ e),
            pyFloat2N (i + 1)⟩) := by
    intro i hi
    rw [hv, getD_append_right', entriesFor_getD _ _ _ _ _ _ hi, Nat.add_comm 1 i]
  refine ⟨by rw [hrun], ?_, ?_, ?_⟩
  · rw [hv]
    simp [entriesFor_length]
  · intro i hi
    rw [hget i hi]
    exact ⟨rfl, rfl⟩
  · intro i j hi hj hij hd
    rw [hget i hi, hget j hj]
    exact pyFloat2N_ne_of_numDigits_eq hd (by omega)

/-- C6 witness: the amended theorem applied at a concrete state. -/
theorem partition_by_tags_version_numbering_witness :
    (partition_by_tags true SW).1 = .ok () :=
  (partition_by_tags_version_numbering SW pW dfW ".csv" rfl (by decide) (by decide) (by decide)
    (by decide) (by decide)).1

/-! ## Claim C7: partition with a missing tag column -/

/-- C7: when the current table lacks the `Tags` column or the `Tag Type`
column, `partition_by_tags` fails with a missing-column error and the
returned state is exactly the input state: no project update, no ledger
entry, no blob write. -/
theorem partition_by_tags_missing_column
    (σ : DBState) (p : ProjectRec) (df : Table) (e : String) (verOk : Bool)
    (hp : σ.project = some p) (hfp : p.file_path ≠ "")
    (hb : lookupBlob σ p.file_path = some (some df))
    (hext : extOf p.file_path = some e)
    (h : "Tags" ∉ df.cols ∨ "Tag Type" ∉ df.cols) :
    ∃ c, c ∈ ["Tags", "Tag Type"] ∧
      partition_by_tags verOk σ = (.error (.missingColumn c), σ) := by
  by_cases htag : "Tags" ∈ df.cols
  · rcases h with h | h
    · exact absurd htag h
    · refine ⟨"Tag Type", by simp, ?_⟩
      simp only [partition_by_tags, hp, hb, hext, if_neg hfp, if_pos htag, if_neg h]
  · refine ⟨"Tags", by simp, ?_⟩
    simp only [partition_by_tags, hp, hb, hext, if_neg hfp, if_neg htag]

/-- C7 witness: the theorem applied at a state whose table lacks the
`Tag Type` column. -/
theorem partition_by_tags_missing_column_witness :
    ∃ c, c ∈ ["Tags", "Tag Type"] ∧
      partition_by_tags true SW7 = (.error (.missingColumn c), SW7) :=
  partition_by_tags_missing_column SW7 pW dfW7 ".csv" true rfl (by decide) (by decide)
    (by decide) (Or.inr (by decide))

/-! ## Claim C8: dropping empty rows is idempotent -/

/-- C8: `drop_empty_rows` (pandas `dropna(how='all')`), which removes
exactly the rows whose cells are all missing, is idempotent:
applying it twice equals applying it once, for every table. -/
theorem drop_empty_rows_idempotent (t : Table) :
    dropEmptyRows (dropEmptyRows t) = dropEmptyRows t := by
  simp [dropEmptyRows, List.filter_filter]

/-! ## Claim C9: the sentinel locks a partitioned project -/

/-- C9: a successful partition replaces the project's `file_path` with the
literal sentinel `"sub_versions"`, which is not a key of the blob store;
consequently a subsequent rename (`update_column_names`), a repeated
`partition_by_tags`, and a column listing (`get_column_names`) each fail
with a file-not-found error and return the state unchanged, so a
partitioned project can never be renamed or re-partitioned. -/
theorem partition_by_tags_sentinel_locks
    (σ : DBState) (p : ProjectRec) (df : Table) (e : String)
    (hp : σ.project = some p) (hfp : p.file_path ≠ "")
    (hb : lookupBlob σ p.file_path = some (some df))
    (hext : extOf p.file_path = some e)
    (htag : "Tags" ∈ df.cols) (htt : "Tag Type" ∈ df.cols)
    (hsent : ∀ b ∈ σ.blobs, b.1 ≠ sentinel)
    (mapping : List (String × String)) (vOk uOk wOk : Bool) :
    ∃ σ' p', partition_by_tags true σ = (.ok (), σ') ∧
      σ'.project = some p' ∧ p'.file_path = sentinel ∧
      update_column_names (some mapping) vOk uOk σ' = (.error .fileNotFound, σ') ∧
      partition_by_tags wOk σ' = (.error .fileNotFound, σ') ∧
      get_column_names σ' = (.error .fileNotFound, σ') := by
  have hrun := partition_success_run σ p df e true hp hfp hb hext htag htt
  refine ⟨(partition_by_tags true σ).2, { p with file_path := sentinel, sub_versions := (partLoop (joinPath uploadFolder p.name) e df.cols true 1 (groupsOf df) σ).1, version_number := 2 }, ?_, ?_, rfl, ?_, ?_, ?_⟩
  · rw [hrun]
  · rw [hrun]
  · have hinv : ∀ b ∈ (partition_by_tags true σ).2.blobs, b.1 ≠ sentinel := by
      rw [hrun]
      exact partLoop_blobs_no_sentinel _ e df.cols true
        (joinPath_ne_empty uploadFolder p.name (by decide)) (groupsOf df) 1 σ hsent
    have hlook : lookupBlob (partition_by_tags true σ).2 sentinel = none :=
      lookup_eq_none_of_forall _ _ hinv
    rw [hrun]
    rw [hrun] at hlook
    simp only [update_column_names, if_neg (by decide : ¬ (sentinel = "")), hlook]
  · have hinv : ∀ b ∈ (partition_by_tags true σ).2.blobs, b.1 ≠ sentinel := by
      rw [hrun]
      exact partLoop_blobs_no_sentinel _ e df.cols true
        (joinPath_ne_empty uploadFolder p.name (by decide)) (groupsOf df) 1 σ hsent
    have hlook : lookupBlob (partition_by_tags true σ).2 sentinel = none :=
      lookup_eq_none_of_forall _ _ hinv
    rw [hrun]
    rw [hrun] at hlook
    simp only [partition_by_tags, if_neg (by decide : ¬ (sentinel = "")), hlook]
  · have hinv : ∀ b ∈ (partition_by_tags true σ).2.blobs, b.1 ≠ sentinel := by
      rw [hrun]
      exact partLoop_blobs_no_sentinel _ e df.cols true
        (joinPath_ne_empty uploadFolder p.name (by decide)) (groupsOf df) 1 σ hsent
    have hlook : lookupBlob (partition_by_tags true σ).2 sentinel = none :=
      lookup_eq_none_of_forall _ _ hinv
    rw [hrun]
    rw [hrun] at hlook
    simp only [get_column_names, if_neg (by decide : ¬ (sentinel = "")), hlook]

/-- C9 witness: the theorem applied at a concrete partitionable state. -/
theorem partition_by_tags_sentinel_locks_witness :
    ∃ σ' p', partition_by_tags true SW = (.ok (), σ') ∧
      σ'.project = some p' ∧ p'.file_path = sentinel ∧
      update_column_names (some []) true true σ' = (.error .fileNotFound, σ') ∧
      partition_by_tags true σ' = (.error .fileNotFound, σ') ∧
      get_column_names σ' = (.error .fileNotFound, σ') :=
  partition_by_tags_sentinel_locks SW pW dfW ".csv" rfl (by decide) (by decide) (by decide)
    (by decide) (by decide) (by decide) [] true true true

/-! ## Claim C10: unsupported upload leaves the partial project behind -/

/-- C10: when the uploaded file's path ends in neither `.csv` nor `.xlsx`
(or its content cannot be parsed), `upload_dataset` fails only AFTER the
project record, the v0 ledger entry, and the raw blob have been created,
and performs no cleanup: the orphaned project remains with version number 0
and `file_path` pointing at the unprocessable raw file. -/
theorem upload_dataset_unsupported_no_cleanup
    (name filename : String) (content : Option Table) (rd : Bool) :
    (extOf (joinPath (joinPath uploadFolder name) filename) = none →
      upload_dataset name filename content rd true true true true true emptyState
        = (.error .unsupportedFormat, postV0 name filename content rd)) ∧
    (∀ e, extOf (joinPath (joinPath uploadFolder name) filename) = some e → content = none →
      upload_dataset name filename content rd true true true true true emptyState
        = (.error .readError, postV0 name filename content rd)) := by
  constructor
  · intro hx
    show upload_process (joinPath (joinPath uploadFolder name) filename) content rd true true
        ⟨name, joinPath (joinPath uploadFolder name) filename, rd, [("v0", 0)], 0, []⟩
        (postV0 name filename content rd) = _
    simp only [upload_process, hx]
  · intro e hx hc
    subst hc
    show upload_process (joinPath (joinPath uploadFolder name) filename) none rd true true
        ⟨name, joinPath (joinPath uploadFolder name) filename, rd, [("v0", 0)], 0, []⟩
        (postV0 name filename none rd) = _
    simp only [upload_process, hx]

/-- C10 witness: the theorem applied at a `.txt` upload. -/
theorem upload_dataset_unsupported_no_cleanup_witness :
    upload_dataset "p" "data.txt" (some ⟨["a"], [[some "x"]]⟩) false true true true true true
        emptyState
      = (.error .unsupportedFormat, postV0 "p" "data.txt" (some ⟨["a"], [[some "x"]]⟩) false) :=
  (upload_dataset_unsupported_no_cleanup "p" "data.txt" (some ⟨["a"], [[some "x"]]⟩) false).1
    (by decide)
